import Mathlib

/-!
Verification of the CattoPic image pipeline.

Shallow embedding of the three handler files:
  * `uploadSingleHandler`  (worker/src/handlers/upload.ts)
  * `randomHandler`        (retrieval / content negotiation)
  * `cleanupHandler`       (expiry sweep)

External services that are consumed but whose code is not part of the
handler sources (StorageService, MetadataService, CompressionService,
ImageProcessor helpers, `getBestFormat`, `buildImageUrls`) are modelled
from the specification; each such definition carries a doc comment
starting with "Modelled from the spec".   Effects (object-store writes,
the transcoder call, the metadata save, the upstream transform fetch)
are made explicit: their outcomes are inputs (an environment record)
and their occurrence is recorded in an event trace returned next to the
handler result.  Strings model storage locations exactly as in the
source, with `""` playing the role of the falsy empty path.
-/

/-- Maximum declared/actual file size accepted by the upload handler (70MB). -/
def MAX_FILE_SIZE : Nat := 70 * 1024 * 1024

/-- Input-size cap of the transform service; larger inputs skip transcoding (10MB). -/
def CLOUDFLARE_IMAGES_MAX_BYTES : Nat := 10 * 1024 * 1024

/-- Modelled from the spec: `ImageProcessor.isSupportedFormat` — the fixed set of
recognized container formats (jpeg, jpg, png, gif, webp, avif). -/
def isSupportedFormat (fmt : String) : Bool :=
  fmt == "jpeg" || fmt == "jpg" || fmt == "png" || fmt == "gif" || fmt == "webp" || fmt == "avif"

/-- Modelled from the spec: `ImageProcessor.getContentType` — canonical MIME type
of a detected format. -/
def getContentType (fmt : String) : String :=
  if fmt == "jpeg" || fmt == "jpg" then "image/jpeg"
  else if fmt == "png" then "image/png"
  else if fmt == "gif" then "image/gif"
  else if fmt == "webp" then "image/webp"
  else if fmt == "avif" then "image/avif"
  else "application/octet-stream"

/-- The three storage locations proposed by the path allocator. -/
structure GeneratedPaths where
  original : String
  webp : String
  avif : String
deriving Repr, DecidableEq

/-- Modelled from the spec: `StorageService.generatePaths` (PathAllocator §4.2) —
pure and deterministic, distinct slots per identifier, no cross-identifier
collisions. -/
def generatePaths (id : String) (orientation : String) (format : String) : GeneratedPaths :=
  { original := "images/" ++ orientation ++ "/" ++ id ++ "/original." ++ format
  , webp := "images/" ++ orientation ++ "/" ++ id ++ "/derived.webp"
  , avif := "images/" ++ orientation ++ "/" ++ id ++ "/derived.avif" }

/-- The variant map of a record: three path slots, `""` meaning "not available". -/
structure ImagePaths where
  original : String
  webp : String
  avif : String
deriving Repr, DecidableEq

/-- Recorded byte sizes per variant (0 for unavailable/marker variants). -/
structure ImageSizes where
  original : Nat
  webp : Nat
  avif : Nat
deriving Repr, DecidableEq

/-- The persisted image metadata record (fields used by the handlers). -/
structure ImageMetadata where
  id : String
  orientation : String
  format : String
  width : Nat
  height : Nat
  paths : ImagePaths
  sizes : ImageSizes
deriving Repr, DecidableEq

/-- One output of the transcoder for one target encoding (bytes elided, size kept). -/
structure CompressedVariant where
  size : Nat
deriving Repr, DecidableEq

/-- Modelled from the spec: result of `CompressionService.compress` — the external
transcoder "may omit either/both on failure; must not raise for 'not worth
compressing,' only for hard failure"; the service resolves a per-format failure
into an omitted output rather than an exception. -/
structure CompressionResult where
  webp : Option CompressedVariant
  avif : Option CompressedVariant
deriving Repr, DecidableEq

/-- Outcomes of the external operations an upload performs, fixed up front. -/
structure UploadEnv where
  originalPutOk : Bool
  webpPutOk : Bool
  avifPutOk : Bool
  compressionResult : CompressionResult
  metaSaveOk : Bool
deriving Repr, DecidableEq

/-- The request-dependent inputs of `uploadSingleHandler`.  `format`, `width`
and `height` stand for the result of `ImageProcessor.getImageInfo` on the
uploaded bytes; `generateWebp`/`generateAvif` are the parsed compression
option flags (source: `options.generateWebp !== false`, default true). -/
structure UploadRequest where
  contentLength : Option Nat
  hasFile : Bool
  fileName : String
  fileSize : Nat
  format : String
  width : Nat
  height : Nat
  generateWebp : Bool
  generateAvif : Bool
  hasImagesBinding : Bool
deriving Repr, DecidableEq

/-- Events of an upload run, in completion order.  A write event is recorded
only when the write succeeds. -/
inductive UEvent where
  | readBody
  | compressCall
  | putOriginal
  | putWebp
  | putAvif
  | saveMetadata
deriving Repr, DecidableEq

/-- Result of `uploadSingleHandler` as seen by the caller. -/
inductive UploadOutcome where
  | success (meta : ImageMetadata)
  | tooLarge
  | noFile
  | unsupportedFormat
  | uploadFailed
deriving Repr, DecidableEq

/-- Orientation derived from pixel dimensions (§4.1: portrait when
height > width, ties resolve to landscape). -/
def detectOrientation (width height : Nat) : String :=
  if height > width then "portrait" else "landscape"

/-- Final step of every successful branch: `metadata.saveImage` (upload.ts line
174); a save failure is caught by the handler's outer catch. -/
def finishSave (env : UploadEnv) (req : UploadRequest) (id orientation : String)
    (paths : ImagePaths) (sizes : ImageSizes) (tr : List UEvent) :
    UploadOutcome × List UEvent :=
  if env.metaSaveOk then
    (.success
      { id := id
      , orientation := orientation
      , format := req.format
      , width := req.width
      , height := req.height
      , paths := paths
      , sizes := sizes }, tr ++ [.saveMetadata])
  else (.uploadFailed, tr)

/-- The condition `isGif || isWebp || isAvif` of upload.ts lines 79–82: the
formats that bypass transcoding entirely. -/
def isPassThroughFormat (fmt : String) : Bool :=
  fmt == "gif" || fmt == "webp" || fmt == "avif"

/-- Pass-through branch of the upload (upload.ts lines 90–100): awaits the
original write, then aliases the matching slot literally to the original. -/
def passThroughRun (env : UploadEnv) (req : UploadRequest) (id : String) :
    UploadOutcome × List UEvent :=
  let orientation := detectOrientation req.width req.height
  let gen := generatePaths id orientation req.format
  let isWebp := req.format == "webp"
  let isAvif := req.format == "avif"
  if !env.originalPutOk then (.uploadFailed, [.readBody])
  else
    finishSave env req id orientation
      { original := gen.original
      , webp := if isWebp then gen.original else ""
      , avif := if isAvif then gen.original else "" }
      { original := req.fileSize
      , webp := if isWebp then req.fileSize else 0
      , avif := if isAvif then req.fileSize else 0 }
      [.readBody, .putOriginal]

/-- Normal branch of the upload (upload.ts lines 101–138): the transcode call
runs concurrently with the original write; each produced wanted variant is
uploaded to its allocated slot, each wanted variant the transcoder did not
produce falls back to the marker alias.  A rejected derived write propagates
through `Promise.all` to the outer catch. -/
def normalRun (env : UploadEnv) (req : UploadRequest) (id : String) :
    UploadOutcome × List UEvent :=
  let orientation := detectOrientation req.width req.height
  let gen := generatePaths id orientation req.format
  let tr1 : List UEvent := [.readBody, .compressCall]
  if !env.originalPutOk then (.uploadFailed, tr1)
  else
    let tr2 := tr1 ++ [.putOriginal]
    let res := env.compressionResult
    let doWebp := req.generateWebp && res.webp.isSome
    let doAvif := req.generateAvif && res.avif.isSome
    if doWebp && !env.webpPutOk then (.uploadFailed, tr2)
    else
      let tr3 := if doWebp then tr2 ++ [.putWebp] else tr2
      if doAvif && !env.avifPutOk then (.uploadFailed, tr3)
      else
        let tr4 := if doAvif then tr3 ++ [.putAvif] else tr3
        finishSave env req id orientation
          { original := gen.original
          , webp := if doWebp then gen.webp
                    else if req.generateWebp then gen.original else ""
          , avif := if doAvif then gen.avif
                    else if req.generateAvif then gen.original else "" }
          { original := req.fileSize
          , webp := if doWebp then (match res.webp with
                      | some v => v.size
                      | none => 0) else 0
          , avif := if doAvif then (match res.avif with
                      | some v => v.size
                      | none => 0) else 0 }
          tr4

/-- Skip branch of the upload (upload.ts lines 139–146): oversized input or no
transcoder binding; only the original is written and each wanted derived slot
becomes the marker alias. -/
def skipRun (env : UploadEnv) (req : UploadRequest) (id : String) :
    UploadOutcome × List UEvent :=
  let orientation := detectOrientation req.width req.height
  let gen := generatePaths id orientation req.format
  if !env.originalPutOk then (.uploadFailed, [.readBody])
  else
    finishSave env req id orientation
      { original := gen.original
      , webp := if req.generateWebp then gen.original else ""
      , avif := if req.generateAvif then gen.original else "" }
      { original := req.fileSize, webp := 0, avif := 0 }
      [.readBody, .putOriginal]

/-- Embedding of `uploadSingleHandler` (upload.ts lines 21–212).  The body-read
(formData + arrayBuffer) is the `readBody` event; the form-parse error path,
tags, expiry and the response URLs are elided as orthogonal to the variant
logic.  Rejected promises reach the outer catch and yield `uploadFailed`. -/
def uploadSingle (env : UploadEnv) (req : UploadRequest) (id : String) :
    UploadOutcome × List UEvent :=
  -- Content-Length fail-fast check (lines 24–31), before the body is read.
  if (match req.contentLength with
      | some n => decide (n > MAX_FILE_SIZE)
      | none => false) then
    (.tooLarge, [])
  else if !req.hasFile then (.noFile, [.readBody])
  else if decide (req.fileSize > MAX_FILE_SIZE) then (.tooLarge, [.readBody])
  else if !(isSupportedFormat req.format) then (.unsupportedFormat, [.readBody])
  else if isPassThroughFormat req.format then passThroughRun env req id
  else if req.hasImagesBinding && decide (req.fileSize ≤ CLOUDFLARE_IMAGES_MAX_BYTES) then
    normalRun env req id
  else skipRun env req id

/-!  Retrieval: `randomHandler` (content negotiation).  -/

/-- Per-format URLs of a record.  The source represents an absent URL as the
falsy `""`; generated URLs are never empty, so `Option` embeds the truthiness
tests faithfully. -/
structure ImageUrls where
  original : String
  webp : Option String
  avif : Option String
deriving Repr, DecidableEq

/-- Modelled from the spec: the on-demand transform URL of the original for one
target encoding (glossary: "a request-time image conversion performed by an
external service via URL"). -/
def transformUrl (baseUrl originalPath target : String) : String :=
  baseUrl ++ "/cdn-cgi/image/format=" ++ target ++ "/" ++ originalPath

/-- Modelled from the spec: `buildImageUrls` — the per-format URLs of the upload
response (§6).  A format's URL is present exactly when its generate option is
set; a concrete slot maps to its direct object URL, a marker or empty slot to
the on-demand transform URL of the original. -/
def buildImageUrls (baseUrl : String) (image : ImageMetadata)
    (genWebp genAvif : Bool) : ImageUrls :=
  { original := baseUrl ++ "/" ++ image.paths.original
  , webp :=
      if genWebp then
        some (if image.paths.webp != "" &&
                 !(image.paths.webp == image.paths.original && image.format != "webp")
              then baseUrl ++ "/" ++ image.paths.webp
              else transformUrl baseUrl image.paths.original "webp")
      else none
  , avif :=
      if genAvif then
        some (if image.paths.avif != "" &&
                 !(image.paths.avif == image.paths.original && image.format != "avif")
              then baseUrl ++ "/" ++ image.paths.avif
              else transformUrl baseUrl image.paths.original "avif")
      else none }

/-- Modelled from the spec: `getBestFormat` — best mutually supported encoding
from the Accept capability signal, preferring avif over webp over original. -/
def getBestFormat (acceptsAvif acceptsWebp : Bool) : String :=
  if acceptsAvif then "avif" else if acceptsWebp then "webp" else "original"

/-- Outcomes of the external operations a retrieval performs.  `storedKeys`
are the object-store keys that `storage.get` can produce; `upstreamOk` and
`upstreamHasBody` describe the on-demand transform fetch response. -/
structure RetrievalEnv where
  record : Option ImageMetadata
  storedKeys : List String
  upstreamOk : Bool
  upstreamHasBody : Bool
  upstreamContentType : Option String
deriving Repr, DecidableEq

/-- The request-dependent inputs of `randomHandler` that reach format
selection: the `format` query parameter and the Accept capability signal
consumed by `getBestFormat`. -/
structure RetrievalRequest where
  formatParam : Option String
  acceptsAvif : Bool
  acceptsWebp : Bool
deriving Repr, DecidableEq

/-- How the handler decided to serve: a direct object-store read of a key, or
a proxied fetch of a URL; each with the content-type fallback it computed. -/
inductive ServeDecision where
  | direct (key : String) (fallbackCT : String)
  | proxy (url : String) (fallbackCT : String)
deriving Repr, DecidableEq

/-- Target format chosen when the source is not gif (part_001 lines 70–77):
an explicit valid `format` parameter wins, anything else defers to the
Accept-based negotiation. -/
def chooseTargetFormat (formatParam : Option String)
    (acceptsAvif acceptsWebp : Bool) : String :=
  match formatParam with
  | some s =>
      if s == "webp" || s == "avif" || s == "original" then s
      else getBestFormat acceptsAvif acceptsWebp
  | none => getBestFormat acceptsAvif acceptsWebp

/-- Slot resolution for a chosen target format (part_001 lines 79–108):
computes the pair (r2Key, targetUrl) and the content-type fallback; a present
r2Key is a direct serve, an absent one a proxied transform fetch. -/
def resolveVariant (image : ImageMetadata) (urls : ImageUrls) (format : String) :
    ServeDecision :=
  if format == "avif" then
    match urls.avif with
    | none => .direct image.paths.original (getContentType image.format)
    | some u =>
        if image.paths.avif != "" then
          if image.paths.avif == image.paths.original && image.format != "avif" then
            .proxy u "image/avif"
          else
            .direct image.paths.avif "image/avif"
        else .proxy u "image/avif"
  else if format == "webp" then
    match urls.webp with
    | none => .direct image.paths.original (getContentType image.format)
    | some u =>
        if image.paths.webp != "" then
          if image.paths.webp == image.paths.original && image.format != "webp" then
            .proxy u "image/webp"
          else
            .direct image.paths.webp "image/webp"
        else .proxy u "image/webp"
  else
    .direct image.paths.original (getContentType image.format)

/-- The generate-webp option the handler passes to `buildImageUrls`
(part_001 line 53). -/
def wantsWebpUrl (image : ImageMetadata) : Bool :=
  image.paths.webp != "" || decide (image.sizes.original > CLOUDFLARE_IMAGES_MAX_BYTES)

/-- The generate-avif option the handler passes to `buildImageUrls`
(part_001 line 54). -/
def wantsAvifUrl (image : ImageMetadata) : Bool :=
  image.paths.avif != "" || decide (image.sizes.original > CLOUDFLARE_IMAGES_MAX_BYTES)

/-- The complete serve decision for one record (part_001 lines 48–109): gif is
always served as the original with no negotiation; otherwise the chosen
format's slot is resolved. -/
def decisionOf (baseUrl : String) (image : ImageMetadata) (req : RetrievalRequest) :
    ServeDecision :=
  if image.format == "gif" then
    .direct image.paths.original "image/gif"
  else
    resolveVariant image
      (buildImageUrls baseUrl image (wantsWebpUrl image) (wantsAvifUrl image))
      (chooseTargetFormat req.formatParam req.acceptsAvif req.acceptsWebp)

/-- Result of `randomHandler` as seen by the client. -/
inductive RetrievalOutcome where
  | noMatch
  | objectMissing
  | upstreamFailed
  | servedDirect (key : String) (contentType : String)
  | servedProxy (url : String) (contentType : String)
deriving Repr, DecidableEq

/-- Execution of a serve decision (part_001 lines 112–142): a direct decision
reads the object store and 404s when the key is absent, a proxy decision
fetches upstream and 404s unless the response is ok with a body. -/
def execServe (env : RetrievalEnv) (d : ServeDecision) : RetrievalOutcome :=
  match d with
  | .direct key ct =>
      if env.storedKeys.contains key then .servedDirect key ct else .objectMissing
  | .proxy url ct =>
      if env.upstreamOk && env.upstreamHasBody then
        .servedProxy url
          (match env.upstreamContentType with
           | some c => c
           | none => ct)
      else .upstreamFailed

/-- Embedding of `randomHandler` (part_001 lines 13–148).  Tag, exclusion and
orientation filtering happen inside the external `metadata.getRandomImage`,
whose outcome is `env.record`. -/
def randomHandler (baseUrl : String) (env : RetrievalEnv) (req : RetrievalRequest) :
    RetrievalOutcome :=
  match env.record with
  | none => .noMatch
  | some image => execServe env (decisionOf baseUrl image req)

/-- The three 404 outcomes of the retrieval handler. -/
def is404 : RetrievalOutcome → Bool
  | .noMatch => true
  | .objectMissing => true
  | .upstreamFailed => true
  | _ => false

/-!  Cleanup: `cleanupHandler` (expiry sweep, part_000 lines 68–102).  -/

/-- One expired record together with the outcomes of the two external deletes
the sweep performs for it. -/
structure ExpiredItem where
  image : ImageMetadata
  deleteObjectsOk : Bool
  deleteRowOk : Bool
deriving Repr, DecidableEq

/-- Events of a cleanup run, in completion order; an event is recorded only
when the operation succeeds. -/
inductive CEvent where
  | deleteObjects (id : String) (keys : List String)
  | deleteRow (id : String)
deriving Repr, DecidableEq

/-- Keys collected for one expired image (part_000 lines 81–83): always the
original, plus each truthy derived path. -/
def keysToDelete (image : ImageMetadata) : List String :=
  image.paths.original ::
    ((if image.paths.webp != "" then [image.paths.webp] else []) ++
     (if image.paths.avif != "" then [image.paths.avif] else []))

/-- One iteration of the sweep loop: delete the object-store keys, then the
metadata row; a failure of either aborts this item only (inner try/catch) and
the item does not count as deleted. -/
def cleanupStep (item : ExpiredItem) : Bool × List CEvent :=
  if item.deleteObjectsOk then
    if item.deleteRowOk then
      (true, [.deleteObjects item.image.id (keysToDelete item.image),
              .deleteRow item.image.id])
    else
      (false, [.deleteObjects item.image.id (keysToDelete item.image)])
  else (false, [])

/-- Embedding of the loop of `cleanupHandler`: processes every expired item in
order and returns the aggregate success count with the event trace. -/
def cleanupSweep : List ExpiredItem → Nat × List CEvent
  | [] => (0, [])
  | item :: rest =>
      let s := cleanupStep item
      let r := cleanupSweep rest
      ((if s.fst then 1 else 0) + r.fst, s.snd ++ r.snd)

/-!  Auxiliary definitions used by the claim statements.  -/

/-- The declared Content-Length, when present, is within the maximum. -/
def declaredLengthOk (req : UploadRequest) : Bool :=
  match req.contentLength with
  | some n => decide (n ≤ MAX_FILE_SIZE)
  | none => true

/-- The slot of the variant map a target format reads. -/
def slotOf (image : ImageMetadata) (fmt : String) : String :=
  if fmt == "webp" then image.paths.webp
  else if fmt == "avif" then image.paths.avif
  else image.paths.original

/-- The URLs `randomHandler` passes to slot resolution (part_001 lines 49–56). -/
def negotiationUrls (baseUrl : String) (image : ImageMetadata) : ImageUrls :=
  buildImageUrls baseUrl image (wantsWebpUrl image) (wantsAvifUrl image)

/-- Formalisation of the spec's format-selection policy (§4.5 steps 1–2),
written from the spec's words for comparison with the code: gif is always
`original`; otherwise a valid explicit request wins; otherwise the best
mutually supported encoding, preferring avif over webp over original. -/
def specTargetFormat (image : ImageMetadata) (req : RetrievalRequest) : String :=
  if image.format = "gif" then "original"
  else
    match req.formatParam with
    | some s =>
        if s = "original" ∨ s = "webp" ∨ s = "avif" then s
        else if req.acceptsAvif then "avif"
          else if req.acceptsWebp then "webp" else "original"
    | none =>
        if req.acceptsAvif then "avif"
        else if req.acceptsWebp then "webp" else "original"

/-- Claim C1 as stated: on the normal transcoding path, neither a transcoder
failure nor a derived-variant write failure is ever surfaced as a request
failure; with the original write and the metadata save succeeding, the upload
always succeeds. -/
def recoveryClaim : Prop :=
  ∀ (env : UploadEnv) (req : UploadRequest) (id : String),
    declaredLengthOk req = true → req.hasFile = true →
    isSupportedFormat req.format = true → isPassThroughFormat req.format = false →
    req.hasImagesBinding = true → req.fileSize ≤ CLOUDFLARE_IMAGES_MAX_BYTES →
    env.originalPutOk = true → env.metaSaveOk = true →
    ∃ meta, (uploadSingle env req id).fst = UploadOutcome.success meta

/-- Claim C4 as stated: once a non-gif target format is chosen, an empty slot
is served as the original directly, a marker-alias slot is proxied through the
on-demand transform, and a concrete slot is served directly from the store. -/
def slotResolutionClaim : Prop :=
  ∀ (baseUrl : String) (image : ImageMetadata) (fmt : String),
    (fmt = "webp" ∨ fmt = "avif") → image.format ≠ "gif" →
    (slotOf image fmt = "" →
        resolveVariant image (negotiationUrls baseUrl image) fmt =
          ServeDecision.direct image.paths.original (getContentType image.format))
    ∧ (slotOf image fmt ≠ "" → slotOf image fmt = image.paths.original →
        image.format ≠ fmt →
        ∃ u ct, resolveVariant image (negotiationUrls baseUrl image) fmt =
          ServeDecision.proxy u ct)
    ∧ (slotOf image fmt ≠ "" →
        (slotOf image fmt = image.paths.original → image.format = fmt) →
        resolveVariant image (negotiationUrls baseUrl image) fmt =
          ServeDecision.direct (slotOf image fmt) ("image/" ++ fmt))

/-- Formalisation of claim C7's not-found conditions, from the claim's words:
no matching record, or the resolved concrete location is absent from the
object store, or the on-demand transform upstream fetch is non-success. -/
def claimedNotFound (baseUrl : String) (env : RetrievalEnv) (req : RetrievalRequest) :
    Bool :=
  match env.record with
  | none => true
  | some image =>
      match decisionOf baseUrl image req with
      | .direct key _ => !(env.storedKeys.contains key)
      | .proxy _ _ => !env.upstreamOk

/-- Claim C7 as stated: retrieval yields a 404 in exactly the claimed
situations. -/
def notFoundClaim : Prop :=
  ∀ (baseUrl : String) (env : RetrievalEnv) (req : RetrievalRequest),
    is404 (randomHandler baseUrl env req) = claimedNotFound baseUrl env req

/-- The code's actual not-found conditions: as claimed, except that a proxied
fetch also 404s on a success response that carries no body. -/
def actualNotFound (baseUrl : String) (env : RetrievalEnv) (req : RetrievalRequest) :
    Bool :=
  match env.record with
  | none => true
  | some image =>
      match decisionOf baseUrl image req with
      | .direct key _ => !(env.storedKeys.contains key)
      | .proxy _ _ => !(env.upstreamOk && env.upstreamHasBody)

/-- Claim C6's property of one upload run: the metadata save is the last
event, and every nonempty slot of the saved record is either the original's
location (written as `putOriginal`) or the allocated derived location whose
write event precedes the save. -/
def savedLastProp (out : UploadOutcome × List UEvent) (meta : ImageMetadata) : Prop :=
  out.snd = out.snd.dropLast ++ [UEvent.saveMetadata]
  ∧ UEvent.saveMetadata ∉ out.snd.dropLast
  ∧ UEvent.putOriginal ∈ out.snd.dropLast
  ∧ (meta.paths.webp ≠ "" →
      meta.paths.webp = meta.paths.original ∨ UEvent.putWebp ∈ out.snd.dropLast)
  ∧ (meta.paths.avif ≠ "" →
      meta.paths.avif = meta.paths.original ∨ UEvent.putAvif ∈ out.snd.dropLast)

/-!  Concrete inputs for witnesses and counterexamples.  -/

/-- All-success environment with the transcoder producing both variants. -/
def okEnv : UploadEnv :=
  { originalPutOk := true, webpPutOk := true, avifPutOk := true
  , compressionResult := { webp := some { size := 1200 }, avif := some { size := 900 } }
  , metaSaveOk := true }

/-- A small jpeg upload request wanting both derived variants. -/
def jpegReq : UploadRequest :=
  { contentLength := some 5000, hasFile := true, fileName := "a.jpg"
  , fileSize := 5000, format := "jpeg", width := 10, height := 20
  , generateWebp := true, generateAvif := true, hasImagesBinding := true }

/-- Claim C1's failing input: the webp derived write fails on the normal path. -/
def c1Env : UploadEnv := { okEnv with webpPutOk := false }

/-- Claim C2's input: a webp pass-through upload. -/
def c2Req : UploadRequest := { jpegReq with format := "webp", fileName := "a.webp" }

/-- Claim C3's input: an oversized (11MB) jpeg routed around the transcoder. -/
def c3Req : UploadRequest :=
  { jpegReq with fileSize := 11 * 1024 * 1024, contentLength := some (11 * 1024 * 1024) }

/-- Claim C8's failing declared length: 71MB in the Content-Length header. -/
def c8Req : UploadRequest := { jpegReq with contentLength := some (71 * 1024 * 1024) }

/-- Claim C6's input environment: transcoder produced only webp. -/
def c6Env : UploadEnv :=
  { okEnv with compressionResult := { webp := some { size := 1200 }, avif := none } }

/-- A jpeg record whose derived slots are both empty while the original
exceeds the 10MB transform threshold. -/
def bigJpegRecord : ImageMetadata :=
  { id := "big", orientation := "landscape", format := "jpeg", width := 90, height := 60
  , paths := { original := "images/landscape/big/original.jpeg", webp := "", avif := "" }
  , sizes := { original := 11 * 1024 * 1024, webp := 0, avif := 0 } }

/-- A jpeg record whose avif slot is the marker alias. -/
def markerRecord : ImageMetadata :=
  { id := "mk", orientation := "landscape", format := "jpeg", width := 90, height := 60
  , paths := { original := "images/landscape/mk/original.jpeg", webp := ""
             , avif := "images/landscape/mk/original.jpeg" }
  , sizes := { original := 5000, webp := 0, avif := 0 } }

/-- Retrieval request explicitly asking for avif. -/
def avifReq : RetrievalRequest :=
  { formatParam := some "avif", acceptsAvif := false, acceptsWebp := false }

/-- Claim C7's failing environment: the marker record is matched, the upstream
transform fetch reports success but carries no body. -/
def c7Env : RetrievalEnv :=
  { record := some markerRecord
  , storedKeys := ["images/landscape/mk/original.jpeg"]
  , upstreamOk := true, upstreamHasBody := false, upstreamContentType := none }

/-- Retrieval environment with the marker record and a healthy upstream. -/
def c5Env : RetrievalEnv :=
  { record := some markerRecord
  , storedKeys := ["images/landscape/mk/original.jpeg"]
  , upstreamOk := true, upstreamHasBody := true
  , upstreamContentType := some "image/avif" }

/-- An expired item whose object-store delete fails. -/
def c9bad : ExpiredItem :=
  { image := bigJpegRecord, deleteObjectsOk := false, deleteRowOk := true }

/-- An expired item whose deletes both succeed. -/
def c9good : ExpiredItem :=
  { image := markerRecord, deleteObjectsOk := true, deleteRowOk := true }

/-!  Dispatch lemmas: which branch `uploadSingle` takes.  -/

theorem contentLengthGuard_false (req : UploadRequest)
    (hlen : declaredLengthOk req = true) :
    (match req.contentLength with
     | some n => decide (n > MAX_FILE_SIZE)
     | none => false) = false := by
  unfold declaredLengthOk at hlen
  cases hcl : req.contentLength with
  | none => rfl
  | some n =>
      rw [hcl] at hlen
      simp only [decide_eq_true_eq] at hlen
      simp only [decide_eq_false_iff_not]
      omega

theorem uploadSingle_eq_passThroughRun (env : UploadEnv) (req : UploadRequest)
    (id : String) (hlen : declaredLengthOk req = true) (hfile : req.hasFile = true)
    (hsize : req.fileSize ≤ MAX_FILE_SIZE)
    (hsupp : isSupportedFormat req.format = true)
    (hpass : isPassThroughFormat req.format = true) :
    uploadSingle env req id = passThroughRun env req id := by
  unfold uploadSingle
  rw [contentLengthGuard_false req hlen]
  have hs : decide (req.fileSize > MAX_FILE_SIZE) = false := by
    simp only [decide_eq_false_iff_not]; omega
  simp [hfile, hs, hsupp, hpass]

theorem uploadSingle_eq_normalRun (env : UploadEnv) (req : UploadRequest)
    (id : String) (hlen : declaredLengthOk req = true) (hfile : req.hasFile = true)
    (hsupp : isSupportedFormat req.format = true)
    (hpass : isPassThroughFormat req.format = false)
    (hbind : req.hasImagesBinding = true)
    (hsize : req.fileSize ≤ CLOUDFLARE_IMAGES_MAX_BYTES) :
    uploadSingle env req id = normalRun env req id := by
  unfold uploadSingle
  rw [contentLengthGuard_false req hlen]
  have hs : decide (req.fileSize > MAX_FILE_SIZE) = false := by
    simp only [decide_eq_false_iff_not]
    unfold CLOUDFLARE_IMAGES_MAX_BYTES at hsize
    unfold MAX_FILE_SIZE
    omega
  have hc : decide (req.fileSize ≤ CLOUDFLARE_IMAGES_MAX_BYTES) = true := by
    simp only [decide_eq_true_eq]; exact hsize
  simp [hfile, hs, hsupp, hpass, hbind, hc]

theorem uploadSingle_eq_skipRun (env : UploadEnv) (req : UploadRequest)
    (id : String) (hlen : declaredLengthOk req = true) (hfile : req.hasFile = true)
    (hsize : req.fileSize ≤ MAX_FILE_SIZE)
    (hsupp : isSupportedFormat req.format = true)
    (hpass : isPassThroughFormat req.format = false)
    (hskip : req.hasImagesBinding = false ∨ CLOUDFLARE_IMAGES_MAX_BYTES < req.fileSize) :
    uploadSingle env req id = skipRun env req id := by
  unfold uploadSingle
  rw [contentLengthGuard_false req hlen]
  have hs : decide (req.fileSize > MAX_FILE_SIZE) = false := by
    simp only [decide_eq_false_iff_not]; omega
  rcases hskip with hb | hbig
  · simp [hfile, hs, hsupp, hpass, hb]
  · have hc : decide (req.fileSize ≤ CLOUDFLARE_IMAGES_MAX_BYTES) = false := by
      simp only [decide_eq_false_iff_not]; omega
    simp [hfile, hs, hsupp, hpass, hc]

theorem passThrough_supported (fmt : String)
    (h : isPassThroughFormat fmt = true) : isSupportedFormat fmt = true := by
  unfold isPassThroughFormat at h
  simp only [Bool.or_eq_true, beq_iff_eq] at h
  obtain (h | h) | h := h <;> simp [isSupportedFormat, h]

/-!  Branch characterisations.  -/

theorem passThroughRun_success (env : UploadEnv) (req : UploadRequest) (id : String)
    (horig : env.originalPutOk = true) (hmeta : env.metaSaveOk = true) :
    passThroughRun env req id =
      (UploadOutcome.success
        { id := id
        , orientation := detectOrientation req.width req.height
        , format := req.format
        , width := req.width
        , height := req.height
        , paths :=
            { original := (generatePaths id (detectOrientation req.width req.height) req.format).original
            , webp := if req.format == "webp" then
                (generatePaths id (detectOrientation req.width req.height) req.format).original else ""
            , avif := if req.format == "avif" then
                (generatePaths id (detectOrientation req.width req.height) req.format).original else "" }
        , sizes :=
            { original := req.fileSize
            , webp := if req.format == "webp" then req.fileSize else 0
            , avif := if req.format == "avif" then req.fileSize else 0 } },
       [UEvent.readBody, UEvent.putOriginal, UEvent.saveMetadata]) := by
  simp [passThroughRun, finishSave, horig, hmeta]

theorem passThroughRun_originalFail (env : UploadEnv) (req : UploadRequest) (id : String)
    (horig : env.originalPutOk = false) :
    passThroughRun env req id = (UploadOutcome.uploadFailed, [UEvent.readBody]) := by
  simp [passThroughRun, horig]

theorem passThroughRun_saveFail (env : UploadEnv) (req : UploadRequest) (id : String)
    (horig : env.originalPutOk = true) (hmeta : env.metaSaveOk = false) :
    passThroughRun env req id =
      (UploadOutcome.uploadFailed, [UEvent.readBody, UEvent.putOriginal]) := by
  simp [passThroughRun, finishSave, horig, hmeta]

theorem skipRun_success (env : UploadEnv) (req : UploadRequest) (id : String)
    (horig : env.originalPutOk = true) (hmeta : env.metaSaveOk = true) :
    skipRun env req id =
      (UploadOutcome.success
        { id := id
        , orientation := detectOrientation req.width req.height
        , format := req.format
        , width := req.width
        , height := req.height
        , paths :=
            { original := (generatePaths id (detectOrientation req.width req.height) req.format).original
            , webp := if req.generateWebp then
                (generatePaths id (detectOrientation req.width req.height) req.format).original else ""
            , avif := if req.generateAvif then
                (generatePaths id (detectOrientation req.width req.height) req.format).original else "" }
        , sizes := { original := req.fileSize, webp := 0, avif := 0 } },
       [UEvent.readBody, UEvent.putOriginal, UEvent.saveMetadata]) := by
  simp [skipRun, finishSave, horig, hmeta]

theorem skipRun_originalFail (env : UploadEnv) (req : UploadRequest) (id : String)
    (horig : env.originalPutOk = false) :
    skipRun env req id = (UploadOutcome.uploadFailed, [UEvent.readBody]) := by
  simp [skipRun, horig]

theorem skipRun_saveFail (env : UploadEnv) (req : UploadRequest) (id : String)
    (horig : env.originalPutOk = true) (hmeta : env.metaSaveOk = false) :
    skipRun env req id =
      (UploadOutcome.uploadFailed, [UEvent.readBody, UEvent.putOriginal]) := by
  simp [skipRun, finishSave, horig, hmeta]

theorem normalRun_success (env : UploadEnv) (req : UploadRequest) (id : String)
    (horig : env.originalPutOk = true)
    (hw : (req.generateWebp && env.compressionResult.webp.isSome) = true →
      env.webpPutOk = true)
    (ha : (req.generateAvif && env.compressionResult.avif.isSome) = true →
      env.avifPutOk = true)
    (hmeta : env.metaSaveOk = true) :
    normalRun env req id =
      (UploadOutcome.success
        { id := id
        , orientation := detectOrientation req.width req.height
        , format := req.format
        , width := req.width
        , height := req.height
        , paths :=
            { original := (generatePaths id (detectOrientation req.width req.height) req.format).original
            , webp :=
                if req.generateWebp && env.compressionResult.webp.isSome then
                  (generatePaths id (detectOrientation req.width req.height) req.format).webp
                else if req.generateWebp then
                  (generatePaths id (detectOrientation req.width req.height) req.format).original
                else ""
            , avif :=
                if req.generateAvif && env.compressionResult.avif.isSome then
                  (generatePaths id (detectOrientation req.width req.height) req.format).avif
                else if req.generateAvif then
                  (generatePaths id (detectOrientation req.width req.height) req.format).original
                else "" }
        , sizes :=
            { original := req.fileSize
            , webp :=
                if req.generateWebp && env.compressionResult.webp.isSome then
                  (match env.compressionResult.webp with
                   | some v => v.size
                   | none => 0)
                else 0
            , avif :=
                if req.generateAvif && env.compressionResult.avif.isSome then
                  (match env.compressionResult.avif with
                   | some v => v.size
                   | none => 0)
                else 0 } },
       [UEvent.readBody, UEvent.compressCall, UEvent.putOriginal]
         ++ (if req.generateWebp && env.compressionResult.webp.isSome then
              [UEvent.putWebp] else [])
         ++ (if req.generateAvif && env.compressionResult.avif.isSome then
              [UEvent.putAvif] else [])
         ++ [UEvent.saveMetadata]) := by
  by_cases hdw : (req.generateWebp && env.compressionResult.webp.isSome) = true
  · have hw' := hw hdw
    by_cases hda : (req.generateAvif && env.compressionResult.avif.isSome) = true
    · have ha' := ha hda
      simp [normalRun, finishSave, horig, hmeta, hdw, hda, hw', ha']
    · simp [normalRun, finishSave, horig, hmeta, hdw, hda, hw']
  · by_cases hda : (req.generateAvif && env.compressionResult.avif.isSome) = true
    · have ha' := ha hda
      simp [normalRun, finishSave, horig, hmeta, hdw, hda, ha']
    · simp [normalRun, finishSave, horig, hmeta, hdw, hda]

theorem normalRun_originalFail (env : UploadEnv) (req : UploadRequest) (id : String)
    (horig : env.originalPutOk = false) :
    normalRun env req id =
      (UploadOutcome.uploadFailed, [UEvent.readBody, UEvent.compressCall]) := by
  simp [normalRun, horig]

theorem normalRun_webpPutFail (env : UploadEnv) (req : UploadRequest) (id : String)
    (horig : env.originalPutOk = true)
    (hdw : (req.generateWebp && env.compressionResult.webp.isSome) = true)
    (hw : env.webpPutOk = false) :
    normalRun env req id =
      (UploadOutcome.uploadFailed,
       [UEvent.readBody, UEvent.compressCall, UEvent.putOriginal]) := by
  simp [normalRun, horig, hdw, hw]

theorem normalRun_avifPutFail (env : UploadEnv) (req : UploadRequest) (id : String)
    (horig : env.originalPutOk = true)
    (hw : (req.generateWebp && env.compressionResult.webp.isSome) = true →
      env.webpPutOk = true)
    (hda : (req.generateAvif && env.compressionResult.avif.isSome) = true)
    (ha : env.avifPutOk = false) :
    normalRun env req id =
      (UploadOutcome.uploadFailed,
       [UEvent.readBody, UEvent.compressCall, UEvent.putOriginal]
         ++ (if req.generateWebp && env.compressionResult.webp.isSome then
              [UEvent.putWebp] else [])) := by
  by_cases hdw : (req.generateWebp && env.compressionResult.webp.isSome) = true
  · have hw' := hw hdw
    simp [normalRun, horig, hda, ha, hdw, hw']
  · simp [normalRun, horig, hda, ha, hdw]

theorem normalRun_saveFail (env : UploadEnv) (req : UploadRequest) (id : String)
    (horig : env.originalPutOk = true)
    (hw : (req.generateWebp && env.compressionResult.webp.isSome) = true →
      env.webpPutOk = true)
    (ha : (req.generateAvif && env.compressionResult.avif.isSome) = true →
      env.avifPutOk = true)
    (hmeta : env.metaSaveOk = false) :
    normalRun env req id =
      (UploadOutcome.uploadFailed,
       [UEvent.readBody, UEvent.compressCall, UEvent.putOriginal]
         ++ (if req.generateWebp && env.compressionResult.webp.isSome then
              [UEvent.putWebp] else [])
         ++ (if req.generateAvif && env.compressionResult.avif.isSome then
              [UEvent.putAvif] else [])) := by
  by_cases hdw : (req.generateWebp && env.compressionResult.webp.isSome) = true
  · have hw' := hw hdw
    by_cases hda : (req.generateAvif && env.compressionResult.avif.isSome) = true
    · have ha' := ha hda
      simp [normalRun, finishSave, horig, hmeta, hdw, hda, hw', ha']
    · simp [normalRun, finishSave, horig, hmeta, hdw, hda, hw']
  · by_cases hda : (req.generateAvif && env.compressionResult.avif.isSome) = true
    · have ha' := ha hda
      simp [normalRun, finishSave, horig, hmeta, hdw, hda, ha']
    · simp [normalRun, finishSave, horig, hmeta, hdw, hda]

/-- Claim C2: for gif/webp/avif sources the pipeline never invokes the
transcoder and uploads only the original; a webp (resp. avif) source gets its
slot aliased literally to the original location with the original's byte size
recorded, and a gif source leaves both derived slots empty with size 0. -/
theorem upload_passThrough_aliases (env : UploadEnv) (req : UploadRequest)
    (id : String) (hlen : declaredLengthOk req = true) (hfile : req.hasFile = true)
    (hsize : req.fileSize ≤ MAX_FILE_SIZE)
    (hpass : isPassThroughFormat req.format = true) :
    (UEvent.compressCall ∉ (uploadSingle env req id).snd
      ∧ UEvent.putWebp ∉ (uploadSingle env req id).snd
      ∧ UEvent.putAvif ∉ (uploadSingle env req id).snd)
    ∧ (env.originalPutOk = true → env.metaSaveOk = true →
        ∃ meta, (uploadSingle env req id).fst = UploadOutcome.success meta
          ∧ (req.format = "webp" →
              meta.paths.webp = meta.paths.original ∧ meta.sizes.webp = req.fileSize)
          ∧ (req.format = "avif" →
              meta.paths.avif = meta.paths.original ∧ meta.sizes.avif = req.fileSize)
          ∧ (req.format = "gif" →
              meta.paths.webp = "" ∧ meta.paths.avif = ""
                ∧ meta.sizes.webp = 0 ∧ meta.sizes.avif = 0)) := by
  rw [uploadSingle_eq_passThroughRun env req id hlen hfile hsize
    (passThrough_supported req.format hpass) hpass]
  cases horig : env.originalPutOk with
  | false =>
      rw [passThroughRun_originalFail env req id horig]
      refine ⟨by simp, ?_⟩
      intro h _; simp [horig] at h
  | true =>
      cases hmeta : env.metaSaveOk with
      | false =>
          rw [passThroughRun_saveFail env req id horig hmeta]
          refine ⟨by simp, ?_⟩
          intro _ h; simp [hmeta] at h
      | true =>
          rw [passThroughRun_success env req id horig hmeta]
          refine ⟨by simp, ?_⟩
          intro _ _
          refine ⟨_, rfl, ?_, ?_, ?_⟩
          · intro h; simp [h]
          · intro h; simp [h]
          · intro h; simp [h]

theorem upload_passThrough_aliases_witness :
    (UEvent.compressCall ∉ (uploadSingle okEnv c2Req "img").snd
      ∧ UEvent.putWebp ∉ (uploadSingle okEnv c2Req "img").snd
      ∧ UEvent.putAvif ∉ (uploadSingle okEnv c2Req "img").snd)
    ∧ (okEnv.originalPutOk = true → okEnv.metaSaveOk = true →
        ∃ meta, (uploadSingle okEnv c2Req "img").fst = UploadOutcome.success meta
          ∧ (c2Req.format = "webp" →
              meta.paths.webp = meta.paths.original ∧ meta.sizes.webp = c2Req.fileSize)
          ∧ (c2Req.format = "avif" →
              meta.paths.avif = meta.paths.original ∧ meta.sizes.avif = c2Req.fileSize)
          ∧ (c2Req.format = "gif" →
              meta.paths.webp = "" ∧ meta.paths.avif = ""
                ∧ meta.sizes.webp = 0 ∧ meta.sizes.avif = 0)) :=
  upload_passThrough_aliases okEnv c2Req "img" (by decide) (by decide) (by decide)
    (by decide)

/-- Claim C3: when transcoding is skipped (input above the 10MB transform
threshold, or no transcoder configured) the transcoder is never invoked and
each wanted target slot becomes the marker alias equal to the original
location, with that variant's recorded size remaining 0. -/
theorem upload_skip_markers (env : UploadEnv) (req : UploadRequest) (id : String)
    (hlen : declaredLengthOk req = true) (hfile : req.hasFile = true)
    (hsize : req.fileSize ≤ MAX_FILE_SIZE)
    (hsupp : isSupportedFormat req.format = true)
    (hpass : isPassThroughFormat req.format = false)
    (hskip : req.hasImagesBinding = false ∨ CLOUDFLARE_IMAGES_MAX_BYTES < req.fileSize) :
    UEvent.compressCall ∉ (uploadSingle env req id).snd
    ∧ (env.originalPutOk = true → env.metaSaveOk = true →
        ∃ meta, (uploadSingle env req id).fst = UploadOutcome.success meta
          ∧ meta.paths.webp = (if req.generateWebp then meta.paths.original else "")
          ∧ meta.paths.avif = (if req.generateAvif then meta.paths.original else "")
          ∧ meta.sizes.webp = 0 ∧ meta.sizes.avif = 0) := by
  rw [uploadSingle_eq_skipRun env req id hlen hfile hsize hsupp hpass hskip]
  cases horig : env.originalPutOk with
  | false =>
      rw [skipRun_originalFail env req id horig]
      refine ⟨by simp, ?_⟩
      intro h _; simp [horig] at h
  | true =>
      cases hmeta : env.metaSaveOk with
      | false =>
          rw [skipRun_saveFail env req id horig hmeta]
          refine ⟨by simp, ?_⟩
          intro _ h; simp [hmeta] at h
      | true =>
          rw [skipRun_success env req id horig hmeta]
          refine ⟨by simp, ?_⟩
          intro _ _
          exact ⟨_, rfl, rfl, rfl, rfl, rfl⟩

theorem upload_skip_markers_witness :
    UEvent.compressCall ∉ (uploadSingle okEnv c3Req "img").snd
    ∧ (okEnv.originalPutOk = true → okEnv.metaSaveOk = true →
        ∃ meta, (uploadSingle okEnv c3Req "img").fst = UploadOutcome.success meta
          ∧ meta.paths.webp = (if c3Req.generateWebp then meta.paths.original else "")
          ∧ meta.paths.avif = (if c3Req.generateAvif then meta.paths.original else "")
          ∧ meta.sizes.webp = 0 ∧ meta.sizes.avif = 0) :=
  upload_skip_markers okEnv c3Req "img" (by decide) (by decide) (by decide)
    (by decide) (by decide) (Or.inr (by decide))

/-- Claim C8: a declared Content-Length above the 70MB maximum is rejected
with the 413 validation error before the body is read (empty event trace),
while a body that merely exceeds the 10MB transcoder input cap is not
rejected but routed to the skip-transcoding branch. -/
theorem upload_length_guard (env : UploadEnv) (req : UploadRequest) (id : String) :
    (∀ n, req.contentLength = some n → MAX_FILE_SIZE < n →
       uploadSingle env req id = (UploadOutcome.tooLarge, []))
    ∧ (declaredLengthOk req = true → req.hasFile = true →
       isSupportedFormat req.format = true → isPassThroughFormat req.format = false →
       CLOUDFLARE_IMAGES_MAX_BYTES < req.fileSize → req.fileSize ≤ MAX_FILE_SIZE →
       uploadSingle env req id = skipRun env req id
         ∧ (uploadSingle env req id).fst ≠ UploadOutcome.tooLarge
         ∧ UEvent.compressCall ∉ (uploadSingle env req id).snd) := by
  constructor
  · intro n hcl hn
    have hd : decide (n > MAX_FILE_SIZE) = true := decide_eq_true hn
    unfold uploadSingle
    simp [hcl, hd]
  · intro hlen hfile hsupp hpass hbig hsize
    have he := uploadSingle_eq_skipRun env req id hlen hfile hsize hsupp hpass
      (Or.inr hbig)
    refine ⟨he, ?_, ?_⟩ <;> rw [he]
    · cases horig : env.originalPutOk with
      | false => rw [skipRun_originalFail env req id horig]; simp
      | true =>
          cases hmeta : env.metaSaveOk with
          | false => rw [skipRun_saveFail env req id horig hmeta]; simp
          | true => rw [skipRun_success env req id horig hmeta]; simp
    · cases horig : env.originalPutOk with
      | false => rw [skipRun_originalFail env req id horig]; simp
      | true =>
          cases hmeta : env.metaSaveOk with
          | false => rw [skipRun_saveFail env req id horig hmeta]; simp
          | true => rw [skipRun_success env req id horig hmeta]; simp

theorem upload_length_guard_witness :
    uploadSingle okEnv c8Req "img" = (UploadOutcome.tooLarge, [])
    ∧ uploadSingle okEnv c3Req "img" = skipRun okEnv c3Req "img" :=
  ⟨(upload_length_guard okEnv c8Req "img").1 (71 * 1024 * 1024) rfl (by decide),
   ((upload_length_guard okEnv c3Req "img").2 (by decide) (by decide) (by decide)
     (by decide) (by decide) (by decide)).1⟩

/-- Claim C1 is false on the code: on the normal path with the transcoder
having produced a webp variant, a failure of the webp derived-variant
object-store write rejects through `Promise.all` into the outer catch and the
whole upload fails, instead of falling back to the marker alias. -/
theorem upload_recovery_counterexample : ¬ recoveryClaim := by
  intro h
  obtain ⟨meta, hm⟩ := h c1Env jpegReq "img" (by decide) (by decide) (by decide)
    (by decide) (by decide) (by decide) (by decide) (by decide)
  have hv : (uploadSingle c1Env jpegReq "img").fst = UploadOutcome.uploadFailed := by
    decide
  rw [hv] at hm
  simp at hm

/-- Claim C1 amended: on the normal transcoding path, a transcoder failure to
produce a wanted variant is recovered locally via the marker alias and never
surfaced; but a durable-write failure of the original, of a produced wanted
derived variant, or of the metadata save fails the whole upload. -/
theorem upload_recovery_amended (env : UploadEnv) (req : UploadRequest) (id : String)
    (hlen : declaredLengthOk req = true) (hfile : req.hasFile = true)
    (hsupp : isSupportedFormat req.format = true)
    (hpass : isPassThroughFormat req.format = false)
    (hbind : req.hasImagesBinding = true)
    (hsize : req.fileSize ≤ CLOUDFLARE_IMAGES_MAX_BYTES) :
    (env.originalPutOk = true → env.webpPutOk = true → env.avifPutOk = true →
      env.metaSaveOk = true →
      ∃ meta, (uploadSingle env req id).fst = UploadOutcome.success meta
        ∧ (req.generateWebp = true → env.compressionResult.webp = none →
            meta.paths.webp = meta.paths.original ∧ meta.sizes.webp = 0)
        ∧ (req.generateAvif = true → env.compressionResult.avif = none →
            meta.paths.avif = meta.paths.original ∧ meta.sizes.avif = 0))
    ∧ (env.originalPutOk = false →
        (uploadSingle env req id).fst = UploadOutcome.uploadFailed)
    ∧ (env.originalPutOk = true → req.generateWebp = true →
        env.compressionResult.webp.isSome = true → env.webpPutOk = false →
        (uploadSingle env req id).fst = UploadOutcome.uploadFailed)
    ∧ (env.originalPutOk = true → env.webpPutOk = true → req.generateAvif = true →
        env.compressionResult.avif.isSome = true → env.avifPutOk = false →
        (uploadSingle env req id).fst = UploadOutcome.uploadFailed)
    ∧ (env.originalPutOk = true → env.webpPutOk = true → env.avifPutOk = true →
        env.metaSaveOk = false →
        (uploadSingle env req id).fst = UploadOutcome.uploadFailed) := by
  have he := uploadSingle_eq_normalRun env req id hlen hfile hsupp hpass hbind hsize
  rw [he]
  refine ⟨?_, ?_, ?_, ?_, ?_⟩
  · intro horig hw ha hmeta
    rw [normalRun_success env req id horig (fun _ => hw) (fun _ => ha) hmeta]
    refine ⟨_, rfl, ?_, ?_⟩
    · intro hgw hcw; simp [hgw, hcw]
    · intro hga hca; simp [hga, hca]
  · intro horig
    rw [normalRun_originalFail env req id horig]
  · intro horig hgw hcw hw
    rw [normalRun_webpPutFail env req id horig (by simp [hgw, hcw]) hw]
  · intro horig hw hga hca ha
    rw [normalRun_avifPutFail env req id horig (fun _ => hw) (by simp [hga, hca]) ha]
  · intro horig hw ha hmeta
    rw [normalRun_saveFail env req id horig (fun _ => hw) (fun _ => ha) hmeta]

theorem upload_recovery_amended_witness :
    (c6Env.originalPutOk = true → c6Env.webpPutOk = true → c6Env.avifPutOk = true →
      c6Env.metaSaveOk = true →
      ∃ meta, (uploadSingle c6Env jpegReq "img").fst = UploadOutcome.success meta
        ∧ (jpegReq.generateWebp = true → c6Env.compressionResult.webp = none →
            meta.paths.webp = meta.paths.original ∧ meta.sizes.webp = 0)
        ∧ (jpegReq.generateAvif = true → c6Env.compressionResult.avif = none →
            meta.paths.avif = meta.paths.original ∧ meta.sizes.avif = 0))
    ∧ (c6Env.originalPutOk = false →
        (uploadSingle c6Env jpegReq "img").fst = UploadOutcome.uploadFailed)
    ∧ (c6Env.originalPutOk = true → jpegReq.generateWebp = true →
        c6Env.compressionResult.webp.isSome = true → c6Env.webpPutOk = false →
        (uploadSingle c6Env jpegReq "img").fst = UploadOutcome.uploadFailed)
    ∧ (c6Env.originalPutOk = true → c6Env.webpPutOk = true →
        jpegReq.generateAvif = true → c6Env.compressionResult.avif.isSome = true →
        c6Env.avifPutOk = false →
        (uploadSingle c6Env jpegReq "img").fst = UploadOutcome.uploadFailed)
    ∧ (c6Env.originalPutOk = true → c6Env.webpPutOk = true → c6Env.avifPutOk = true →
        c6Env.metaSaveOk = false →
        (uploadSingle c6Env jpegReq "img").fst = UploadOutcome.uploadFailed) :=
  upload_recovery_amended c6Env jpegReq "img" (by decide) (by decide) (by decide)
    (by decide) (by decide) (by decide)

theorem uploadSingle_cases (env : UploadEnv) (req : UploadRequest) (id : String) :
    uploadSingle env req id = (UploadOutcome.tooLarge, [])
  ∨ uploadSingle env req id = (UploadOutcome.noFile, [UEvent.readBody])
  ∨ uploadSingle env req id = (UploadOutcome.tooLarge, [UEvent.readBody])
  ∨ uploadSingle env req id = (UploadOutcome.unsupportedFormat, [UEvent.readBody])
  ∨ uploadSingle env req id = passThroughRun env req id
  ∨ uploadSingle env req id = normalRun env req id
  ∨ uploadSingle env req id = skipRun env req id := by
  unfold uploadSingle
  split
  · exact Or.inl rfl
  · split
    · exact Or.inr (Or.inl rfl)
    · split
      · exact Or.inr (Or.inr (Or.inl rfl))
      · split
        · exact Or.inr (Or.inr (Or.inr (Or.inl rfl)))
        · split
          · exact Or.inr (Or.inr (Or.inr (Or.inr (Or.inl rfl))))
          · split
            · exact Or.inr (Or.inr (Or.inr (Or.inr (Or.inr (Or.inl rfl)))))
            · exact Or.inr (Or.inr (Or.inr (Or.inr (Or.inr (Or.inr rfl)))))

theorem passThroughRun_savedLast (env : UploadEnv) (req : UploadRequest)
    (id : String) (meta : ImageMetadata)
    (hs : (passThroughRun env req id).fst = UploadOutcome.success meta) :
    savedLastProp (passThroughRun env req id) meta := by
  cases horig : env.originalPutOk with
  | false => rw [passThroughRun_originalFail env req id horig] at hs; simp at hs
  | true =>
      cases hmeta : env.metaSaveOk with
      | false => rw [passThroughRun_saveFail env req id horig hmeta] at hs; simp at hs
      | true =>
          rw [passThroughRun_success env req id horig hmeta] at hs ⊢
          simp only [UploadOutcome.success.injEq] at hs
          subst hs
          unfold savedLastProp
          refine ⟨by simp, by simp, by simp, ?_, ?_⟩
          · by_cases hf : (req.format == "webp") = true
            · intro _; left; simp [hf]
            · intro hne; exfalso; apply hne; simp [hf]
          · by_cases hf : (req.format == "avif") = true
            · intro _; left; simp [hf]
            · intro hne; exfalso; apply hne; simp [hf]

theorem skipRun_savedLast (env : UploadEnv) (req : UploadRequest)
    (id : String) (meta : ImageMetadata)
    (hs : (skipRun env req id).fst = UploadOutcome.success meta) :
    savedLastProp (skipRun env req id) meta := by
  cases horig : env.originalPutOk with
  | false => rw [skipRun_originalFail env req id horig] at hs; simp at hs
  | true =>
      cases hmeta : env.metaSaveOk with
      | false => rw [skipRun_saveFail env req id horig hmeta] at hs; simp at hs
      | true =>
          rw [skipRun_success env req id horig hmeta] at hs ⊢
          simp only [UploadOutcome.success.injEq] at hs
          subst hs
          unfold savedLastProp
          refine ⟨by simp, by simp, by simp, ?_, ?_⟩
          · by_cases hf : req.generateWebp = true
            · intro _; left; simp [hf]
            · intro hne; exfalso; apply hne; simp [hf]
          · by_cases hf : req.generateAvif = true
            · intro _; left; simp [hf]
            · intro hne; exfalso; apply hne; simp [hf]

theorem normalRun_savedLast (env : UploadEnv) (req : UploadRequest)
    (id : String) (meta : ImageMetadata)
    (hs : (normalRun env req id).fst = UploadOutcome.success meta) :
    savedLastProp (normalRun env req id) meta := by
  cases horig : env.originalPutOk with
  | false => rw [normalRun_originalFail env req id horig] at hs; simp at hs
  | true =>
      by_cases hdw : (req.generateWebp && env.compressionResult.webp.isSome) = true
      · cases hwp : env.webpPutOk with
        | false => rw [normalRun_webpPutFail env req id horig hdw hwp] at hs; simp at hs
        | true =>
            by_cases hda :
                (req.generateAvif && env.compressionResult.avif.isSome) = true
            · cases hap : env.avifPutOk with
              | false =>
                  rw [normalRun_avifPutFail env req id horig (fun _ => hwp) hda hap]
                    at hs
                  simp at hs
              | true =>
                  cases hmeta : env.metaSaveOk with
                  | false =>
                      rw [normalRun_saveFail env req id horig (fun _ => hwp)
                        (fun _ => hap) hmeta] at hs
                      simp at hs
                  | true =>
                      rw [normalRun_success env req id horig (fun _ => hwp)
                        (fun _ => hap) hmeta] at hs ⊢
                      simp only [UploadOutcome.success.injEq] at hs
                      subst hs
                      unfold savedLastProp
                      refine ⟨by simp [hdw, hda], by simp [hdw, hda],
                        by simp [hdw, hda], ?_, ?_⟩
                      · intro _; right; simp [hdw, hda]
                      · intro _; right; simp [hdw, hda]
            · have haI : (req.generateAvif && env.compressionResult.avif.isSome) = true →
                  env.avifPutOk = true := fun h => absurd h hda
              cases hmeta : env.metaSaveOk with
              | false =>
                  rw [normalRun_saveFail env req id horig (fun _ => hwp) haI hmeta]
                    at hs
                  simp at hs
              | true =>
                  rw [normalRun_success env req id horig (fun _ => hwp) haI hmeta]
                    at hs ⊢
                  simp only [UploadOutcome.success.injEq] at hs
                  subst hs
                  unfold savedLastProp
                  refine ⟨by simp [hdw, hda], by simp [hdw, hda],
                    by simp [hdw, hda], ?_, ?_⟩
                  · intro _; right; simp [hdw, hda]
                  · by_cases hga : req.generateAvif = true
                    · intro _; left
                      have has : env.compressionResult.avif.isSome = false := by
                        cases h : env.compressionResult.avif.isSome
                        · rfl
                        · exact absurd (by simp [hga, h]) hda
                      simp [hga, has]
                    · intro hne; exfalso; apply hne; simp [hdw, hda, hga]
      · have hwI : (req.generateWebp && env.compressionResult.webp.isSome) = true →
            env.webpPutOk = true := fun h => absurd h hdw
        by_cases hda : (req.generateAvif && env.compressionResult.avif.isSome) = true
        · cases hap : env.avifPutOk with
          | false =>
              rw [normalRun_avifPutFail env req id horig hwI hda hap] at hs
              simp at hs
          | true =>
              cases hmeta : env.metaSaveOk with
              | false =>
                  rw [normalRun_saveFail env req id horig hwI (fun _ => hap) hmeta]
                    at hs
                  simp at hs
              | true =>
                  rw [normalRun_success env req id horig hwI (fun _ => hap) hmeta]
                    at hs ⊢
                  simp only [UploadOutcome.success.injEq] at hs
                  subst hs
                  unfold savedLastProp
                  refine ⟨by simp [hdw, hda], by simp [hdw, hda],
                    by simp [hdw, hda], ?_, ?_⟩
                  · by_cases hgw : req.generateWebp = true
                    · intro _; left
                      have hws : env.compressionResult.webp.isSome = false := by
                        cases h : env.compressionResult.webp.isSome
                        · rfl
                        · exact absurd (by simp [hgw, h]) hdw
                      simp [hgw, hws]
                    · intro hne; exfalso; apply hne; simp [hdw, hda, hgw]
                  · intro _; right; simp [hdw, hda]
        · have haI : (req.generateAvif && env.compressionResult.avif.isSome) = true →
              env.avifPutOk = true := fun h => absurd h hda
          cases hmeta : env.metaSaveOk with
          | false =>
              rw [normalRun_saveFail env req id horig hwI haI hmeta] at hs
              simp at hs
          | true =>
              rw [normalRun_success env req id horig hwI haI hmeta] at hs ⊢
              simp only [UploadOutcome.success.injEq] at hs
              subst hs
              unfold savedLastProp
              refine ⟨by simp [hdw, hda], by simp [hdw, hda],
                by simp [hdw, hda], ?_, ?_⟩
              · by_cases hgw : req.generateWebp = true
                · intro _; left
                  have hws : env.compressionResult.webp.isSome = false := by
                    cases h : env.compressionResult.webp.isSome
                    · rfl
                    · exact absurd (by simp [hgw, h]) hdw
                  simp [hgw, hws]
                · intro hne; exfalso; apply hne; simp [hdw, hda, hgw]
              · by_cases hga : req.generateAvif = true
                · intro _; left
                  have has : env.compressionResult.avif.isSome = false := by
                    cases h : env.compressionResult.avif.isSome
                    · rfl
                    · exact absurd (by simp [hga, h]) hda
                  simp [hga, has]
                · intro hne; exfalso; apply hne; simp [hdw, hda, hga]

/-- Claim C6: in every run whose upload succeeds, the metadata save is the
last event: it happens only after the original write and after the write of
every concrete derived location the saved record references. -/
theorem metadata_saved_after_writes (env : UploadEnv) (req : UploadRequest)
    (id : String) (meta : ImageMetadata)
    (hs : (uploadSingle env req id).fst = UploadOutcome.success meta) :
    savedLastProp (uploadSingle env req id) meta := by
  rcases uploadSingle_cases env req id with he | he | he | he | he | he | he <;>
    rw [he] at hs ⊢
  · simp at hs
  · simp at hs
  · simp at hs
  · simp at hs
  · exact passThroughRun_savedLast env req id meta hs
  · exact normalRun_savedLast env req id meta hs
  · exact skipRun_savedLast env req id meta hs

theorem metadata_saved_after_writes_witness :
    savedLastProp (uploadSingle c6Env jpegReq "img")
      { id := "img", orientation := "portrait", format := "jpeg"
      , width := 10, height := 20
      , paths := { original := "images/portrait/img/original.jpeg"
                 , webp := "images/portrait/img/derived.webp"
                 , avif := "images/portrait/img/original.jpeg" }
      , sizes := { original := 5000, webp := 1200, avif := 0 } } :=
  metadata_saved_after_writes c6Env jpegReq "img" _ (by decide)

theorem chooseTargetFormat_eq_spec (fp : Option String) (aA aW : Bool) :
    chooseTargetFormat fp aA aW =
      (match fp with
       | some s =>
           if s = "original" ∨ s = "webp" ∨ s = "avif" then s
           else if aA then "avif" else if aW then "webp" else "original"
       | none => if aA then "avif" else if aW then "webp" else "original") := by
  cases fp with
  | none => rfl
  | some s =>
      unfold chooseTargetFormat getBestFormat
      by_cases h1 : s = "original" <;> by_cases h2 : s = "webp" <;>
        by_cases h3 : s = "avif" <;> simp_all

/-- Claim C5: the target format a retrieval serves is: `original` whenever the
record's source format is gif; otherwise the explicit valid format parameter;
otherwise the best encoding supported by the capability signal, preferring
avif over webp over original — the handler behaves exactly as resolving the
slot of `specTargetFormat`. -/
theorem format_selection (baseUrl : String) (env : RetrievalEnv)
    (req : RetrievalRequest) (image : ImageMetadata) (h : env.record = some image) :
    randomHandler baseUrl env req =
      execServe env (resolveVariant image (negotiationUrls baseUrl image)
        (specTargetFormat image req)) := by
  cases hrec : env.record with
  | none => rw [hrec] at h; cases h
  | some img =>
      rw [hrec] at h
      injection h with h
      subst h
      simp only [randomHandler, hrec]
      unfold decisionOf specTargetFormat
      by_cases hg : img.format = "gif"
      · rw [if_pos (by simp [hg] : (img.format == "gif") = true), if_pos hg]
        simp [resolveVariant, getContentType, hg, negotiationUrls]
      · rw [if_neg (by simp [hg] : ¬((img.format == "gif") = true)), if_neg hg]
        rw [chooseTargetFormat_eq_spec]
        rfl

theorem format_selection_witness :
    randomHandler "b" c5Env avifReq =
      execServe c5Env (resolveVariant markerRecord (negotiationUrls "b" markerRecord)
        (specTargetFormat markerRecord avifReq)) :=
  format_selection "b" c5Env avifReq markerRecord rfl

/-- Claim C10: an explicit format parameter outside original/webp/avif is
silently ignored and the handler behaves exactly as if no explicit format had
been requested. -/
theorem format_param_ignored (baseUrl : String) (env : RetrievalEnv)
    (aA aW : Bool) (s : String)
    (h1 : s ≠ "webp") (h2 : s ≠ "avif") (h3 : s ≠ "original") :
    randomHandler baseUrl env
        { formatParam := some s, acceptsAvif := aA, acceptsWebp := aW }
      = randomHandler baseUrl env
        { formatParam := none, acceptsAvif := aA, acceptsWebp := aW } := by
  unfold randomHandler
  cases hrec : env.record with
  | none => rfl
  | some image =>
      unfold decisionOf
      simp [chooseTargetFormat, h1, h2, h3]

theorem format_param_ignored_witness :
    randomHandler "b" c5Env
        { formatParam := some "jpegish", acceptsAvif := false, acceptsWebp := false }
      = randomHandler "b" c5Env
        { formatParam := none, acceptsAvif := false, acceptsWebp := false } :=
  format_param_ignored "b" c5Env false false "jpegish" (by decide) (by decide)
    (by decide)

/-- Claim C4 is false on the code: for the record with an empty avif slot and
an original larger than the 10MB transform threshold, a retrieval targeting
avif is proxied through the on-demand transform instead of falling back to
serving the original directly. -/
theorem slot_resolution_counterexample : ¬ slotResolutionClaim := by
  intro h
  have hc := (h "b" bigJpegRecord "avif" (Or.inr rfl) (by decide)).1 (by decide)
  have hv : resolveVariant bigJpegRecord (negotiationUrls "b" bigJpegRecord) "avif"
      = ServeDecision.proxy (transformUrl "b" bigJpegRecord.paths.original "avif")
          "image/avif" := by decide
  rw [hv] at hc
  simp at hc

/-- Claim C4 amended: once a non-gif target format is chosen, an empty slot
falls back to serving the original directly only when the original is within
the 10MB transform threshold — above it the handler proxies the on-demand
transform; a marker-alias slot is always proxied with no direct object-store
read; a concrete slot is served directly from the object store. -/
theorem slot_resolution_amended (baseUrl : String) (image : ImageMetadata)
    (fmt : String) (hf : fmt = "webp" ∨ fmt = "avif") :
    (slotOf image fmt = "" → image.sizes.original ≤ CLOUDFLARE_IMAGES_MAX_BYTES →
        resolveVariant image (negotiationUrls baseUrl image) fmt =
          ServeDecision.direct image.paths.original (getContentType image.format))
    ∧ (slotOf image fmt = "" → CLOUDFLARE_IMAGES_MAX_BYTES < image.sizes.original →
        resolveVariant image (negotiationUrls baseUrl image) fmt =
          ServeDecision.proxy (transformUrl baseUrl image.paths.original fmt)
            ("image/" ++ fmt))
    ∧ (slotOf image fmt ≠ "" → slotOf image fmt = image.paths.original →
        image.format ≠ fmt →
        resolveVariant image (negotiationUrls baseUrl image) fmt =
          ServeDecision.proxy (transformUrl baseUrl image.paths.original fmt)
            ("image/" ++ fmt))
    ∧ (slotOf image fmt ≠ "" →
        (slotOf image fmt = image.paths.original → image.format = fmt) →
        resolveVariant image (negotiationUrls baseUrl image) fmt =
          ServeDecision.direct (slotOf image fmt) ("image/" ++ fmt)) := by
  rcases hf with hf | hf <;> subst hf
  · refine ⟨?_, ?_, ?_, ?_⟩
    · intro h0 hsmall
      have hd : decide (image.sizes.original > CLOUDFLARE_IMAGES_MAX_BYTES) = false :=
        decide_eq_false (by omega)
      simp [slotOf] at h0
      simp [resolveVariant, negotiationUrls, buildImageUrls, wantsWebpUrl, h0, hd]
    · intro h0 hbig
      have hd : decide (image.sizes.original > CLOUDFLARE_IMAGES_MAX_BYTES) = true :=
        decide_eq_true (by omega)
      simp [slotOf] at h0
      simp [resolveVariant, negotiationUrls, buildImageUrls, wantsWebpUrl, h0, hd]
    · intro hne heq hfmt
      simp [slotOf] at hne heq
      rw [heq] at hne
      simp [resolveVariant, negotiationUrls, buildImageUrls, wantsWebpUrl, hne, heq,
        hfmt]
    · intro hne himp
      simp [slotOf] at hne himp
      by_cases heq : image.paths.webp = image.paths.original
      · have hfmt := himp heq
        rw [heq] at hne
        simp [resolveVariant, negotiationUrls, buildImageUrls, wantsWebpUrl, hne,
          heq, hfmt, slotOf]
      · simp [resolveVariant, negotiationUrls, buildImageUrls, wantsWebpUrl, hne,
          heq, slotOf]
  · refine ⟨?_, ?_, ?_, ?_⟩
    · intro h0 hsmall
      have hd : decide (image.sizes.original > CLOUDFLARE_IMAGES_MAX_BYTES) = false :=
        decide_eq_false (by omega)
      simp [slotOf] at h0
      simp [resolveVariant, negotiationUrls, buildImageUrls, wantsAvifUrl, h0, hd]
    · intro h0 hbig
      have hd : decide (image.sizes.original > CLOUDFLARE_IMAGES_MAX_BYTES) = true :=
        decide_eq_true (by omega)
      simp [slotOf] at h0
      simp [resolveVariant, negotiationUrls, buildImageUrls, wantsAvifUrl, h0, hd]
    · intro hne heq hfmt
      simp [slotOf] at hne heq
      rw [heq] at hne
      simp [resolveVariant, negotiationUrls, buildImageUrls, wantsAvifUrl, hne, heq,
        hfmt]
    · intro hne himp
      simp [slotOf] at hne himp
      by_cases heq : image.paths.avif = image.paths.original
      · have hfmt := himp heq
        rw [heq] at hne
        simp [resolveVariant, negotiationUrls, buildImageUrls, wantsAvifUrl, hne,
          heq, hfmt, slotOf]
      · simp [resolveVariant, negotiationUrls, buildImageUrls, wantsAvifUrl, hne,
          heq, slotOf]

theorem slot_resolution_amended_witness :
    (slotOf markerRecord "avif" = "" →
        markerRecord.sizes.original ≤ CLOUDFLARE_IMAGES_MAX_BYTES →
        resolveVariant markerRecord (negotiationUrls "b" markerRecord) "avif" =
          ServeDecision.direct markerRecord.paths.original
            (getContentType markerRecord.format))
    ∧ (slotOf markerRecord "avif" = "" →
        CLOUDFLARE_IMAGES_MAX_BYTES < markerRecord.sizes.original →
        resolveVariant markerRecord (negotiationUrls "b" markerRecord) "avif" =
          ServeDecision.proxy (transformUrl "b" markerRecord.paths.original "avif")
            ("image/" ++ "avif"))
    ∧ (slotOf markerRecord "avif" ≠ "" →
        slotOf markerRecord "avif" = markerRecord.paths.original →
        markerRecord.format ≠ "avif" →
        resolveVariant markerRecord (negotiationUrls "b" markerRecord) "avif" =
          ServeDecision.proxy (transformUrl "b" markerRecord.paths.original "avif")
            ("image/" ++ "avif"))
    ∧ (slotOf markerRecord "avif" ≠ "" →
        (slotOf markerRecord "avif" = markerRecord.paths.original →
          markerRecord.format = "avif") →
        resolveVariant markerRecord (negotiationUrls "b" markerRecord) "avif" =
          ServeDecision.direct (slotOf markerRecord "avif") ("image/" ++ "avif")) :=
  slot_resolution_amended "b" markerRecord "avif" (Or.inr rfl)

/-- Claim C7 is false on the code as an exact characterisation: a proxied
on-demand transform fetch whose upstream response is a success but carries no
body is also answered with the 404 error, a situation outside the claim's
list. -/
theorem retrieval_404_counterexample : ¬ notFoundClaim := by
  intro h
  exact absurd (h "b" c7Env avifReq) (by decide)

/-- Claim C7 amended: retrieval answers 404 exactly when no record matches,
when the resolved concrete location is absent from the object store, or when
the proxied upstream transform fetch returns a non-success response or a
success response without a body. -/
theorem retrieval_404_exactly (baseUrl : String) (env : RetrievalEnv)
    (req : RetrievalRequest) :
    is404 (randomHandler baseUrl env req) = actualNotFound baseUrl env req := by
  cases hrec : env.record with
  | none => simp [randomHandler, actualNotFound, hrec, is404]
  | some image =>
      simp only [randomHandler, actualNotFound, hrec]
      cases hd : decisionOf baseUrl image req with
      | direct key ct =>
          by_cases hk : key ∈ env.storedKeys <;> simp [execServe, hk, is404]
      | proxy url ct =>
          cases ho : env.upstreamOk <;> cases hb : env.upstreamHasBody <;>
            simp [execServe, ho, hb, is404]

/-- Claim C9: the cleanup sweep deletes the object-store bytes of each expired
item before removing its metadata row, treats a per-item failure as non-fatal
(later items are still processed and counted), and reports the aggregate
count of exactly the items whose deletes both succeeded. -/
theorem cleanup_sweep_properties (items : List ExpiredItem) :
    (cleanupSweep items).fst =
        (items.filter (fun it => it.deleteObjectsOk && it.deleteRowOk)).length
    ∧ ∀ it ∈ items, it.deleteObjectsOk = true → it.deleteRowOk = true →
        List.Sublist
          [CEvent.deleteObjects it.image.id (keysToDelete it.image),
           CEvent.deleteRow it.image.id]
          (cleanupSweep items).snd := by
  induction items with
  | nil =>
      refine ⟨rfl, ?_⟩
      intro it h
      cases h
  | cons item rest ih =>
      rcases ih with ⟨ih1, ih2⟩
      constructor
      · by_cases h1 : item.deleteObjectsOk = true
        · by_cases h2 : item.deleteRowOk = true
          · simp [cleanupSweep, cleanupStep, h1, h2, ih1, List.filter_cons]
            omega
          · simp [cleanupSweep, cleanupStep, h1, h2, ih1, List.filter_cons]
        · simp [cleanupSweep, cleanupStep, h1, ih1, List.filter_cons]
      · intro it hmem h1 h2
        rcases List.mem_cons.mp hmem with heq | hmem'
        · subst heq
          have hstep : cleanupStep it =
              (true, [CEvent.deleteObjects it.image.id (keysToDelete it.image),
                      CEvent.deleteRow it.image.id]) := by
            simp [cleanupStep, h1, h2]
          have hsnd : (cleanupSweep (it :: rest)).snd =
              [CEvent.deleteObjects it.image.id (keysToDelete it.image),
               CEvent.deleteRow it.image.id] ++ (cleanupSweep rest).snd := by
            simp [cleanupSweep, hstep]
          rw [hsnd]
          exact List.sublist_append_left _ _
        · have hsub := ih2 it hmem' h1 h2
          have hsnd : (cleanupSweep (item :: rest)).snd =
              (cleanupStep item).snd ++ (cleanupSweep rest).snd := by
            simp [cleanupSweep]
          rw [hsnd]
          exact hsub.trans (List.sublist_append_right _ _)

theorem cleanup_sweep_properties_witness :
    (cleanupSweep [c9bad, c9good]).fst =
        ([c9bad, c9good].filter (fun it => it.deleteObjectsOk && it.deleteRowOk)).length
    ∧ List.Sublist
        [CEvent.deleteObjects c9good.image.id (keysToDelete c9good.image),
         CEvent.deleteRow c9good.image.id]
        (cleanupSweep [c9bad, c9good]).snd :=
  ⟨(cleanup_sweep_properties [c9bad, c9good]).1,
   (cleanup_sweep_properties [c9bad, c9good]).2 c9good (by simp) rfl rfl⟩
